import Mathlib

/-!
Verification of the lifecycle-staged UDP server repository.

Two implementations are embedded from the source:
* `Udp.CreateUdpServer` models the stateful datagram server `createUdpServer`
  of `src/unnamed/part_000` as a trace semantics: each raw transport event
  (datagram arrival, listening confirmation, close) is a function from the
  session state to the new state and the list of observable events (stage
  firings, individual handler invocations, transport sends).
* `Udp.ProtocolServer` models the `ProtocolServer` dispatch engine of
  `src/index.js` (handler registration `on`/`onError`, the chain invoker
  `call`, the UDP `shutdown`/`listen` wrappers) with a fuelled dispatcher,
  since a failing `error`-chain handler makes the JS `call` recurse.

Handlers are modelled by an identity (JS reference equality) plus a flag
saying whether invoking them throws; payloads are modelled as the decoded
text of the datagram (`Buffer.prototype.toString` decodes as UTF-8).
-/

namespace Udp

/-- A registered lifecycle handler. `id` stands for the function object's
identity (JS reference equality); `fails` says whether invoking it throws. -/
structure Handler where
  id : Nat
  fails : Bool
deriving DecidableEq, Repr

/-- The ten lifecycle stages: the keys of `eventHandlers` in `src/index.js`
and of the `config` object destructured by `createUdpServer`. -/
inductive Stage
  | init
  | listening
  | handshake
  | connect
  | receiveMessage
  | processMessage
  | respondMessage
  | disconnect
  | shutdown
  | error
deriving DecidableEq, Repr

namespace CreateUdpServer

/-- The remote endpoint information Node passes to a datagram listener. -/
structure Rinfo where
  address : String
  port : Nat
deriving DecidableEq, Repr

/-- `src/unnamed/part_000`: the session identity
`sessionKey = rinfo.address + ":" + rinfo.port`. -/
def sessionKey (r : Rinfo) : String :=
  r.address ++ ":" ++ toString r.port

/-- The `config` object of `createUdpServer`: one ordered handler chain per
lifecycle stage. -/
structure Config where
  init : List Handler
  listening : List Handler
  handshake : List Handler
  connect : List Handler
  receiveMessage : List Handler
  processMessage : List Handler
  respondMessage : List Handler
  disconnect : List Handler
  shutdown : List Handler
  error : List Handler

/-- Observable events of the `createUdpServer` trace semantics.
`invokeH` records one handler invocation inside a chain; the `fire…`
constructors record that a stage's chain invocation started (one per
`<stage>.forEach(cb => ...)` site in the source); `send` records the call
to `server.send` with the acknowledgment payload. -/
inductive Ev
  | invokeH (s : Stage) (h : Handler)
  | fireInit
  | fireListening (address : String) (port : Nat)
  | fireReceive (msg : String) (r : Rinfo)
  | fireHandshake (r : Rinfo)
  | fireConnect (r : Rinfo)
  | fireProcess (data : String) (r : Rinfo)
  | send (payload : String) (r : Rinfo)
  | fireRespond (payload : String) (r : Rinfo)
  | fireDisconnect (sessionKey : String)
  | fireShutdown
  | fireError
deriving DecidableEq, Repr

/-- `chain.forEach(cb => cb(...))` with JS exception semantics: handlers run
in registration order; a handler that throws is invoked but aborts the rest
of the chain (nothing in `createUdpServer` catches). Returns the invocation
events and whether an exception escaped. -/
def runChain (s : Stage) : List Handler → List Ev × Bool
  | [] => ([], false)
  | h :: rest =>
    if h.fails then ([Ev.invokeH s h], true)
    else
      let p := runChain s rest
      (Ev.invokeH s h :: p.1, p.2)

/-- ASCII-faithful model of `String.prototype.toUpperCase` (the source's
`msg.toString().toUpperCase()`), mapping `Char.toUpper` — which uppercases
exactly the ASCII letters — over the string's characters. -/
def jsToUpperCase (s : String) : String :=
  ⟨s.data.map Char.toUpper⟩

/-- Steps 5 and 6 of the `message` listener in `createUdpServer`: the
`processMessage` chain on `msg.toString().toUpperCase()`, then
`server.send(Buffer.from("ACK: " + processedData), rinfo.port,
rinfo.address, cb)`; the callback runs the `respondMessage` chain only when
`err` is falsy (`sendOk` models the callback's error argument; nothing
happens on a send error). -/
def processAndRespond (cfg : Config) (msg : String) (r : Rinfo) (sendOk : Bool) : List Ev :=
  let processedData := jsToUpperCase msg
  let p := runChain Stage.processMessage cfg.processMessage
  let evs := Ev.fireProcess processedData r :: p.1
  if p.2 then evs
  else
    let response := "ACK: " ++ processedData
    evs ++ Ev.send response r ::
      (if sendOk then
        Ev.fireRespond response r :: (runChain Stage.respondMessage cfg.respondMessage).1
      else [])

/-- The whole `message` listener of `createUdpServer`. The source computes
`isNewConnection` before running the `receiveMessage` chain, but since no
chain mutates `activeSessions`, testing `st.contains key` at the branch is
equivalent. `activeSessions` (a JS `Set`, insertion-ordered) is modelled as
a duplicate-free list; a handler that throws aborts the remainder of the
listener exactly where the exception escapes in the source. -/
def handleMessage (cfg : Config) (st : List String) (msg : String) (r : Rinfo)
    (sendOk : Bool) : List String × List Ev :=
  let key := sessionKey r
  let pR := runChain Stage.receiveMessage cfg.receiveMessage
  let evs0 := Ev.fireReceive msg r :: pR.1
  if pR.2 then (st, evs0)
  else if st.contains key then
    (st, evs0 ++ processAndRespond cfg msg r sendOk)
  else
    let pH := runChain Stage.handshake cfg.handshake
    let evs1 := evs0 ++ Ev.fireHandshake r :: pH.1
    if pH.2 then (st, evs1)
    else
      let st1 := st ++ [key]
      let pC := runChain Stage.connect cfg.connect
      let evs2 := evs1 ++ Ev.fireConnect r :: pC.1
      if pC.2 then (st1, evs2)
      else (st1, evs2 ++ processAndRespond cfg msg r sendOk)

/-- One inbound datagram: its decoded payload, the sender's endpoint, and
whether the acknowledgment send will succeed. -/
structure Datagram where
  payload : String
  rinfo : Rinfo
  sendOk : Bool
deriving DecidableEq, Repr

/-- Delivery of a sequence of datagrams to the `message` listener, threading
the `activeSessions` state and concatenating the event traces. -/
def runMessages (cfg : Config) : List String → List Datagram → List String × List Ev
  | st, [] => (st, [])
  | st, d :: rest =>
    let p := handleMessage cfg st d.payload d.rinfo d.sendOk
    let q := runMessages cfg p.1 rest
    (q.1, p.2 ++ q.2)

/-- `activeSessions.forEach(session => disconnect.forEach(cb => cb(session)))`
from the `close` listener: iterate the recorded sessions in insertion order;
a throwing `disconnect` handler escapes the whole loop. -/
def runDisconnects (cfg : Config) : List String → List Ev × Bool
  | [] => ([], false)
  | k :: rest =>
    let p := runChain Stage.disconnect cfg.disconnect
    let evs := Ev.fireDisconnect k :: p.1
    if p.2 then (evs, true)
    else
      let q := runDisconnects cfg rest
      (evs ++ q.1, q.2)

/-- The `close` listener of `createUdpServer`: fire `disconnect` for every
recorded session, then `activeSessions.clear()`, then fire `shutdown`.
A throwing `disconnect` handler escapes before the clear. -/
def handleClose (cfg : Config) (st : List String) : List String × List Ev :=
  let p := runDisconnects cfg st
  if p.2 then (st, p.1)
  else ([], p.1 ++ Ev.fireShutdown :: (runChain Stage.shutdown cfg.shutdown).1)

/-- The `listening` listener of `createUdpServer`: the chain is invoked with
`server.address()`, the bound local address and port. -/
def handleListening (cfg : Config) (address : String) (port : Nat) : List Ev :=
  Ev.fireListening address port :: (runChain Stage.listening cfg.listening).1

/-- The `error` listener of `createUdpServer`: run the `error` chain with
the transport error, then `server.close()` (which triggers the `close`
listener unless a handler threw first). -/
def handleSocketError (cfg : Config) (st : List String) : List String × List Ev :=
  let p := runChain Stage.error cfg.error
  let evs := Ev.fireError :: p.1
  if p.2 then (st, evs)
  else
    let q := handleClose cfg st
    (q.1, evs ++ q.2)

/-- All handlers of a chain return normally. -/
def chainOk (l : List Handler) : Prop :=
  ∀ h ∈ l, h.fails = false

instance (l : List Handler) : Decidable (chainOk l) :=
  inferInstanceAs (Decidable (∀ h ∈ l, h.fails = false))

/-- Every configured handler returns normally (the well-behaved-handler
assumption under which the lifecycle claims are stated). -/
def noFail (cfg : Config) : Prop :=
  chainOk cfg.init ∧ chainOk cfg.listening ∧ chainOk cfg.handshake ∧
  chainOk cfg.connect ∧ chainOk cfg.receiveMessage ∧ chainOk cfg.processMessage ∧
  chainOk cfg.respondMessage ∧ chainOk cfg.disconnect ∧ chainOk cfg.shutdown ∧
  chainOk cfg.error

instance (cfg : Config) : Decidable (noFail cfg) := by
  unfold noFail; infer_instance

end CreateUdpServer

namespace ProtocolServer

/-- The stage names as strings, as used for the `event` argument of
`ProtocolServer.prototype.on` / `call` in `src/index.js`. -/
def stageName : Stage → String
  | Stage.init => "init"
  | Stage.listening => "listening"
  | Stage.handshake => "handshake"
  | Stage.connect => "connect"
  | Stage.receiveMessage => "receiveMessage"
  | Stage.processMessage => "processMessage"
  | Stage.respondMessage => "respondMessage"
  | Stage.disconnect => "disconnect"
  | Stage.shutdown => "shutdown"
  | Stage.error => "error"

/-- `this.eventHandlers[event]`: the object has exactly the ten stage keys,
so lookup of any other string yields `undefined` (`none`). -/
def stageOfName (s : String) : Option Stage :=
  if s = "init" then some Stage.init
  else if s = "listening" then some Stage.listening
  else if s = "handshake" then some Stage.handshake
  else if s = "connect" then some Stage.connect
  else if s = "receiveMessage" then some Stage.receiveMessage
  else if s = "processMessage" then some Stage.processMessage
  else if s = "respondMessage" then some Stage.respondMessage
  else if s = "disconnect" then some Stage.disconnect
  else if s = "shutdown" then some Stage.shutdown
  else if s = "error" then some Stage.error
  else none

/-- The `_defaultErrorHandler` installed by the `ProtocolServer`
constructor (it only logs, so it never throws). -/
def defaultErrorHandler : Handler :=
  { id := 0, fails := false }

/-- The mutable handler registry of one `ProtocolServer` instance. -/
structure PState where
  chains : Stage → List Handler

/-- Replace one stage's chain in the registry. -/
def updChain (f : Stage → List Handler) (s : Stage) (l : List Handler) :
    Stage → List Handler :=
  fun s' => if s' = s then l else f s'

/-- `ProtocolServer.prototype.on`: for a supported event, first evict the
default error handler when this is the first handler of a non-error stage
and the default is still registered, then append; an unsupported event only
logs a warning. -/
def onEv (st : PState) (event : String) (h : Handler) : PState :=
  match stageOfName event with
  | some s =>
    let st1 : PState :=
      if event ≠ "error" ∧ (st.chains s).length = 0 ∧
          defaultErrorHandler ∈ st.chains Stage.error then
        ⟨updChain st.chains Stage.error
          ((st.chains Stage.error).filter (fun x => x ≠ defaultErrorHandler))⟩
      else st
    ⟨updChain st1.chains s (st1.chains s ++ [h])⟩
  | none => st

/-- `ProtocolServer.prototype.onError`: filter the default handler out of
the error chain if present, then `this.on('error', handler)`. -/
def onError (st : PState) (h : Handler) : PState :=
  let st1 : PState :=
    if defaultErrorHandler ∈ st.chains Stage.error then
      ⟨updChain st.chains Stage.error
        ((st.chains Stage.error).filter (fun x => x ≠ defaultErrorHandler))⟩
    else st
  onEv st1 "error" h

/-- The registry right after the `ProtocolServer` constructor ran: all
chains empty, then `this.onError(this._defaultErrorHandler)`. -/
def initState : PState :=
  onError ⟨fun _ => []⟩ defaultErrorHandler

/-- Observable events of the dispatcher `ProtocolServer.prototype.call`:
`dispatch` marks that `call(stage, args)` started on a supported stage,
`invoke` one handler invocation, `warnUnsupported` the `console.warn` of the
unsupported-event branch. Arguments are modelled as lists of strings. -/
inductive CEvent
  | dispatch (stage : String) (args : List String)
  | invoke (stage : String) (h : Handler)
  | warnUnsupported (stage : String)
deriving DecidableEq, Repr

/-- The error message `new Error("No handlers defined for event \x22" +
event + "\x22")` of the unsupported-event branch of `call`. -/
def mkNoHandlersMsg (event : String) : String :=
  "No handlers defined for event \x22" ++ event ++ "\x22"

/-- The representation of a caught handler exception forwarded as the first
argument of `this.call('error', error, event, ...args)`. -/
def thrownErr : String :=
  "handler threw"

/-- `ProtocolServer.prototype.call` with explicit fuel: run the stage's
handlers in order; a handler that throws is caught and forwarded as
`call('error', error, event, ...args)`; an unsupported event warns and
forwards `call('error', new Error(...), event, ...args)`. The nested error
dispatch is serialized before the remaining handlers of the outer chain
(the JS code fires it without awaiting; the linearization keeps each
chain's own order). Fuel bounds the `call('error', ...)` recursion, which
in JS does not terminate when an error-chain handler itself throws. -/
def callFuel : Nat → PState → String → List String → List CEvent
  | 0, _, _, _ => []
  | Nat.succ fuel, st, event, args =>
    match stageOfName event with
    | some s =>
      CEvent.dispatch event args ::
        ((st.chains s).map (fun h =>
          CEvent.invoke event h ::
            (if h.fails then callFuel fuel st "error" (thrownErr :: event :: args)
             else []))).flatten
    | none =>
      CEvent.warnUnsupported event ::
        callFuel fuel st "error" (mkNoHandlersMsg event :: event :: args)

/-- All handlers in the instance's error chain return normally (rules out
the divergent `call('error', ...)` recursion). -/
def errorChainOk (st : PState) : Prop :=
  CreateUdpServer.chainOk (st.chains Stage.error)

instance (st : PState) : Decidable (errorChainOk st) :=
  inferInstanceAs (Decidable (CreateUdpServer.chainOk (st.chains Stage.error)))

/-- `UDPServer.prototype.shutdown`, stage-event part: it awaits
`ProtocolServer.prototype.shutdown`, which is `this.call('shutdown')`; the
subsequent `server.close(cb)` emits no stage events (`src/index.js`
registers no `close` listener). -/
def udpShutdownEvents (st : PState) : List CEvent :=
  callFuel 2 st "shutdown" []

/-- Events of `UDPServer.prototype.listen` in temporal order, stage events
tagged apart from the transport milestones (`bind` call, Node's
`listening` confirmation). -/
inductive UEvent
  | stage (e : CEvent)
  | bindStart
  | transportListening
deriving DecidableEq, Repr

/-- `UDPServer.prototype.listen(port, address)`: it first awaits
`ProtocolServer.prototype.listen`, which fires `call('listening', port,
address)` — with the requested port and address, in that order — and only
then creates the socket and calls `server.bind(port, address)`; Node's
`listening` event (the transport's bound confirmation) merely logs and
resolves the promise, dispatching no stage. -/
def udpListen (st : PState) (port : Nat) (address : String) : List UEvent :=
  (callFuel 2 st "listening" [toString port, address]).map UEvent.stage ++
    [UEvent.bindStart, UEvent.transportListening]

/-- The representation of the error object a failed `socket.send` passes to
its callback in `ProtocolServer.prototype.respond`. -/
def sendErr : String :=
  "send error"

/-- `ProtocolServer.prototype.respond` on a datagram socket (`socket` not
writable, `rinfo` present): it fires `call('respondMessage', ...)` before
attempting the send, and the send callback forwards a failure as
`call('error', err, 'respond', response, rinfo)`. `sendOk` models the
callback's error argument. -/
def respond (st : PState) (response : String) (sendOk : Bool) : List CEvent :=
  callFuel 2 st "respondMessage" [response] ++
    (if sendOk then []
     else callFuel 2 st "error" [sendErr, "respond", response])

end ProtocolServer

namespace CreateUdpServer

/-- Extract the transport sends (`server.send` payload and target) from a
trace. -/
def sendOf : Ev → Option (String × Rinfo)
  | Ev.send p r => some (p, r)
  | _ => none

/-- Extract the `respondMessage` stage firings (payload and peer). -/
def respondOf : Ev → Option (String × Rinfo)
  | Ev.fireRespond p r => some (p, r)
  | _ => none

/-- Extract the session keys of the `connect` stage firings. -/
def connectKeyOf : Ev → Option String
  | Ev.fireConnect r => some (sessionKey r)
  | _ => none

/-- The per-peer lifecycle milestones of one identity tuple: its synthetic
handshake, its connect, and each of its `processMessage` firings. -/
inductive LifeTag
  | hs
  | cn
  | pm (data : String)
deriving DecidableEq, Repr

/-- Project a trace onto the lifecycle milestones of the identity tuple
`r`. -/
def lifeOf (r : Rinfo) : Ev → Option LifeTag
  | Ev.fireHandshake r' => if r' = r then some LifeTag.hs else none
  | Ev.fireConnect r' => if r' = r then some LifeTag.cn else none
  | Ev.fireProcess d r' => if r' = r then some (LifeTag.pm d) else none
  | _ => none

/-- An empty configuration: no handler registered for any stage. -/
def cfg0 : Config :=
  ⟨[], [], [], [], [], [], [], [], [], []⟩

/-- A configuration whose handlers all return normally, with a nonempty
chain on every stage a lifecycle claim observes. -/
def cfgW : Config :=
  { cfg0 with
    handshake := [⟨3, false⟩]
    connect := [⟨4, false⟩]
    receiveMessage := [⟨5, false⟩]
    processMessage := [⟨6, false⟩]
    respondMessage := [⟨7, false⟩]
    disconnect := [⟨8, false⟩]
    shutdown := [⟨9, false⟩] }

/-- A configuration whose `receiveMessage` chain has a throwing handler
followed by a normal one. -/
def cfgF : Config :=
  { cfg0 with receiveMessage := [⟨1, true⟩, ⟨2, false⟩] }

/-- A sample peer endpoint. -/
def r0 : Rinfo :=
  ⟨"127.0.0.1", 41234⟩

/-- A second, distinct peer endpoint. -/
def r1 : Rinfo :=
  ⟨"10.0.0.1", 5000⟩

/-- A sample datagram sequence: two datagrams from `r0` around one from
`r1`. -/
def msgs0 : List Datagram :=
  [⟨"Hello", r0, true⟩, ⟨"x", r1, true⟩, ⟨"bye", r0, true⟩]

/-- Conclusion of the per-tuple lifecycle claim: projected onto the tuple
`r`, the whole trace is exactly one handshake, then one connect, then one
`processMessage` (with the uppercased payload) per datagram from `r`. -/
def C2concl (cfg : Config) (msgs : List Datagram) (r : Rinfo) : Prop :=
  ((runMessages cfg [] msgs).2).filterMap (lifeOf r) =
    LifeTag.hs :: LifeTag.cn ::
      (msgs.filter (fun d => d.rinfo = r)).map
        (fun d => LifeTag.pm (jsToUpperCase d.payload))

/-- Conclusion of the teardown claim: after any run, the `close` listener
clears the session set, fires `disconnect` once per recorded session (each
recorded exactly once, exactly for the session keys whose `connect` fired,
in recording order) and then fires `shutdown` once, after all of them. -/
def C5concl (cfg : Config) (msgs : List Datagram) : Prop :=
  (handleClose cfg (runMessages cfg [] msgs).1).1 = [] ∧
  (handleClose cfg (runMessages cfg [] msgs).1).2 =
    (((runMessages cfg [] msgs).1).map
      (fun k => Ev.fireDisconnect k ::
        cfg.disconnect.map (Ev.invokeH Stage.disconnect))).flatten ++
      Ev.fireShutdown :: cfg.shutdown.map (Ev.invokeH Stage.shutdown) ∧
  ((runMessages cfg [] msgs).1).Nodup ∧
  (runMessages cfg [] msgs).1 =
    ((runMessages cfg [] msgs).2).filterMap connectKeyOf

end CreateUdpServer

namespace ProtocolServer

/-- Extract the handlers invoked at stage `e` from a dispatcher trace. -/
def invokeAt (e : String) : CEvent → Option Handler
  | CEvent.invoke e' h => if e' = e then some h else none
  | _ => none

/-- Extract the argument lists of the `error`-stage dispatches from a
dispatcher trace. -/
def errorDispatchOf : CEvent → Option (List String)
  | CEvent.dispatch e a => if e = "error" then some a else none
  | _ => none

/-- Conclusion of the chain fault-isolation claim for
`ProtocolServer.prototype.call`: every registered handler of the stage is
invoked, in registration order, and there is exactly one `error` dispatch
per failing handler, carrying the originating stage name and the original
arguments. -/
def C3concl (st : PState) (s : Stage) (args : List String) : Prop :=
  (callFuel 2 st (stageName s) args).filterMap (invokeAt (stageName s)) =
    st.chains s ∧
  (callFuel 2 st (stageName s) args).filterMap errorDispatchOf =
    ((st.chains s).filter (fun h => h.fails)).map
      (fun _ => thrownErr :: stageName s :: args)

/-- Conclusion of the teardown idempotence analysis for
`UDPServer.prototype.shutdown`: one invocation dispatches the `shutdown`
stage and invokes its chain; two invocations dispatch it twice and invoke
the chain twice. -/
def C6concl (st : PState) : Prop :=
  udpShutdownEvents st =
    CEvent.dispatch "shutdown" [] ::
      (st.chains Stage.shutdown).map (CEvent.invoke "shutdown") ∧
  (udpShutdownEvents st ++ udpShutdownEvents st).count
    (CEvent.dispatch "shutdown" []) = 2 ∧
  (udpShutdownEvents st ++ udpShutdownEvents st).filterMap
    (invokeAt "shutdown") =
    st.chains Stage.shutdown ++ st.chains Stage.shutdown

/-- Conclusion of the default-error-handler claim for `onError`: the
registration filters the default fallback out of the error chain and
appends the new handler; and once the default is gone, no `on` registration
of a non-default handler brings it back. -/
def C7concl (st : PState) (h : Handler) : Prop :=
  (onError st h).chains Stage.error =
    ((st.chains Stage.error).filter (fun x => x ≠ defaultErrorHandler)) ++ [h] ∧
  (defaultErrorHandler ∉ st.chains Stage.error →
    ∀ ev, defaultErrorHandler ∉ (onEv st ev h).chains Stage.error)

/-- Conclusion of the implicit default-eviction claim for `on`: after the
first registration on an empty non-error stage, the default fallback is no
longer in the error chain, and no dispatch ever invokes it as an error
handler again. -/
def C10concl (st' : PState) : Prop :=
  defaultErrorHandler ∉ st'.chains Stage.error ∧
  ∀ f ev args, CEvent.invoke "error" defaultErrorHandler ∉ callFuel f st' ev args

/-- A server state with a throwing and a normal `connect` handler
registered through `on` (so the default error handler was evicted by the
first registration and the error chain is empty). -/
def stC3 : PState :=
  onEv (onEv initState "connect" ⟨1, true⟩) "connect" ⟨2, false⟩

/-- A server state with one first registration: a throwing `connect`
handler, registered before any `error` handler. -/
def stC7 : PState :=
  onEv initState "connect" ⟨1, true⟩

/-- A server state with one registered `shutdown` handler. -/
def stC6 : PState :=
  onEv initState "shutdown" ⟨1, false⟩

end ProtocolServer

namespace CreateUdpServer

theorem runChain_of_ok {l : List Handler} (s : Stage) (hl : chainOk l) :
    runChain s l = (l.map (Ev.invokeH s), false) := by
  induction l with
  | nil => rfl
  | cons a t ih =>
    have ha : a.fails = false := hl a (List.mem_cons_self a t)
    have ht : chainOk t := fun x hx => hl x (List.mem_cons_of_mem a hx)
    simp [runChain, ha, ih ht]

theorem filterMap_invokes_none {α : Type} (f : Ev → Option α) (s : Stage)
    (l : List Handler) (hf : ∀ h, f (Ev.invokeH s h) = none) :
    (l.map (Ev.invokeH s)).filterMap f = [] := by
  induction l with
  | nil => rfl
  | cons a t ih => simp [hf, ih]

theorem filterMap_comp_invokes_none {α : Type} (f : Ev → Option α) (s : Stage)
    (l : List Handler) (hf : ∀ h, f (Ev.invokeH s h) = none) :
    l.filterMap (f ∘ Ev.invokeH s) = [] := by
  induction l with
  | nil => rfl
  | cons a t ih => simp [hf, ih, Function.comp]

theorem handleMessage_of_ok (cfg : Config) (hok : noFail cfg) (st : List String)
    (msg : String) (r : Rinfo) (sendOk : Bool) :
    handleMessage cfg st msg r sendOk =
      (if st.contains (sessionKey r) then st else st ++ [sessionKey r],
       Ev.fireReceive msg r ::
         cfg.receiveMessage.map (Ev.invokeH Stage.receiveMessage) ++
         (if st.contains (sessionKey r) then []
          else Ev.fireHandshake r :: cfg.handshake.map (Ev.invokeH Stage.handshake) ++
            Ev.fireConnect r :: cfg.connect.map (Ev.invokeH Stage.connect)) ++
         (Ev.fireProcess (jsToUpperCase msg) r ::
           cfg.processMessage.map (Ev.invokeH Stage.processMessage) ++
           Ev.send ("ACK: " ++ jsToUpperCase msg) r ::
             (if sendOk then
               Ev.fireRespond ("ACK: " ++ jsToUpperCase msg) r ::
                 cfg.respondMessage.map (Ev.invokeH Stage.respondMessage)
              else []))) := by
  obtain ⟨_, _, hH, hC, hR, hP, hRm, _, _, _⟩ := hok
  simp only [handleMessage, processAndRespond, runChain_of_ok _ hH,
    runChain_of_ok _ hC, runChain_of_ok _ hR, runChain_of_ok _ hP,
    runChain_of_ok _ hRm]
  by_cases hmem : sessionKey r ∈ st <;>
    simp [hmem, List.append_assoc]

theorem mem_runChain (s : Stage) :
    ∀ (l : List Handler) (e : Ev), e ∈ (runChain s l).1 → ∃ h, e = Ev.invokeH s h := by
  intro l
  induction l with
  | nil => simp [runChain]
  | cons a t ih =>
    intro e he
    by_cases ha : a.fails
    · rw [runChain, if_pos ha] at he
      simp at he
      exact ⟨a, he⟩
    · rw [runChain, if_neg ha] at he
      rcases List.mem_cons.mp he with h | h
      · exact ⟨a, h⟩
      · exact ih e h

theorem runMessages_life (cfg : Config) (hok : noFail cfg) (r : Rinfo) :
    ∀ (msgs : List Datagram) (st : List String),
      (∀ d ∈ msgs, sessionKey d.rinfo = sessionKey r → d.rinfo = r) →
      ((runMessages cfg st msgs).2).filterMap (lifeOf r) =
        (if sessionKey r ∈ st then ([] : List LifeTag)
         else if msgs.any (fun d => d.rinfo = r) then [LifeTag.hs, LifeTag.cn]
         else []) ++
        (msgs.filter (fun d => d.rinfo = r)).map
          (fun d => LifeTag.pm (jsToUpperCase d.payload)) := by
  intro msgs
  induction msgs with
  | nil =>
    intro st hinj
    simp [runMessages]
  | cons d rest ih =>
    obtain ⟨pl, rd, ok⟩ := d
    intro st hinj
    have hd0 : sessionKey rd = sessionKey r → rd = r := by
      have h0 := hinj ⟨pl, rd, ok⟩ (List.mem_cons_self _ _)
      simpa using h0
    have hrest : ∀ x ∈ rest, sessionKey x.rinfo = sessionKey r → x.rinfo = r :=
      fun x hx => hinj x (List.mem_cons_of_mem _ hx)
    simp only [runMessages]
    rw [handleMessage_of_ok cfg hok st pl rd ok]
    by_cases hdr : rd = r
    · subst hdr
      by_cases hmem : sessionKey rd ∈ st
      · by_cases hsend : ok <;>
          simp [hmem, hsend, lifeOf, filterMap_comp_invokes_none,
            List.filterMap_append, ih st hrest]
      · by_cases hsend : ok <;>
          simp [hmem, hsend, lifeOf, filterMap_comp_invokes_none,
            List.filterMap_append, ih (st ++ [sessionKey rd]) hrest]
    · have hkey : sessionKey rd ≠ sessionKey r := fun hcon => hdr (hd0 hcon)
      by_cases hmem : sessionKey rd ∈ st
      · by_cases hsend : ok <;>
          simp [hmem, hsend, hdr, lifeOf, filterMap_comp_invokes_none,
            List.filterMap_append, ih st hrest]
      · by_cases hsend : ok <;>
          simp [hmem, hsend, hdr, lifeOf, filterMap_comp_invokes_none,
            List.filterMap_append, ih (st ++ [sessionKey rd]) hrest,
            List.mem_append, Ne.symm hkey]

theorem runMessages_sessions (cfg : Config) (hok : noFail cfg) :
    ∀ (msgs : List Datagram) (st : List String),
      (runMessages cfg st msgs).1 =
        st ++ ((runMessages cfg st msgs).2).filterMap connectKeyOf := by
  intro msgs
  induction msgs with
  | nil => intro st; simp [runMessages]
  | cons d rest ih =>
    obtain ⟨pl, rd, ok⟩ := d
    intro st
    simp only [runMessages]
    rw [handleMessage_of_ok cfg hok st pl rd ok]
    by_cases hmem : sessionKey rd ∈ st
    · by_cases hsend : ok <;>
        simp [hmem, hsend, connectKeyOf, filterMap_comp_invokes_none,
          List.filterMap_append, ih st]
    · by_cases hsend : ok <;>
        simp [hmem, hsend, connectKeyOf, filterMap_comp_invokes_none,
          List.filterMap_append, ih (st ++ [sessionKey rd])]

theorem runMessages_nodup (cfg : Config) (hok : noFail cfg) :
    ∀ (msgs : List Datagram) (st : List String),
      st.Nodup → (runMessages cfg st msgs).1.Nodup := by
  intro msgs
  induction msgs with
  | nil => intro st h; simpa [runMessages] using h
  | cons d rest ih =>
    obtain ⟨pl, rd, ok⟩ := d
    intro st hnd
    simp only [runMessages]
    rw [handleMessage_of_ok cfg hok st pl rd ok]
    by_cases hmem : sessionKey rd ∈ st
    · simpa [hmem] using ih st hnd
    · have hnd1 : (st ++ [sessionKey rd]).Nodup := by
        simp [List.nodup_append, hnd, hmem]
      simpa [hmem] using ih (st ++ [sessionKey rd]) hnd1

theorem runDisconnects_of_ok (cfg : Config) (hD : chainOk cfg.disconnect) :
    ∀ st : List String,
      runDisconnects cfg st =
        ((st.map (fun k => Ev.fireDisconnect k ::
          cfg.disconnect.map (Ev.invokeH Stage.disconnect))).flatten, false) := by
  intro st
  induction st with
  | nil => rfl
  | cons k rest ih =>
    simp [runDisconnects, runChain_of_ok _ hD, ih]

theorem handleClose_of_ok (cfg : Config) (hD : chainOk cfg.disconnect)
    (hS : chainOk cfg.shutdown) (st : List String) :
    handleClose cfg st =
      ([], (st.map (fun k => Ev.fireDisconnect k ::
        cfg.disconnect.map (Ev.invokeH Stage.disconnect))).flatten ++
        Ev.fireShutdown :: cfg.shutdown.map (Ev.invokeH Stage.shutdown)) := by
  simp [handleClose, runDisconnects_of_ok cfg hD, runChain_of_ok _ hS]

end CreateUdpServer

namespace ProtocolServer

theorem stageOfName_stageName (s : Stage) : stageOfName (stageName s) = some s := by
  cases s <;> rfl

theorem stageName_ne_error (s : Stage) (hs : s ≠ Stage.error) : stageName s ≠ "error" := by
  cases s <;> simp_all [stageName]

theorem callFuel_pos (fuel : Nat) (st : PState) (event : String) (args : List String)
    (s : Stage) (he : stageOfName event = some s) :
    callFuel (fuel + 1) st event args =
      CEvent.dispatch event args ::
        ((st.chains s).map (fun h =>
          CEvent.invoke event h ::
            (if h.fails then callFuel fuel st "error" (thrownErr :: event :: args)
             else []))).flatten := by
  rw [callFuel, he]

theorem callFuel_two (st : PState) (event : String) (args : List String)
    (s : Stage) (he : stageOfName event = some s) :
    callFuel 2 st event args =
      CEvent.dispatch event args ::
        ((st.chains s).map (fun h =>
          CEvent.invoke event h ::
            (if h.fails then callFuel 1 st "error" (thrownErr :: event :: args)
             else []))).flatten :=
  callFuel_pos 1 st event args s he

theorem callFuel_none (fuel : Nat) (st : PState) (ev : String) (args : List String)
    (hb : stageOfName ev = none) :
    callFuel (fuel + 1) st ev args =
      CEvent.warnUnsupported ev ::
        callFuel fuel st "error" (mkNoHandlersMsg ev :: ev :: args) := by
  rw [callFuel, hb]

theorem flatten_invoke_of_ok (n : String) (rest : Handler → List CEvent) :
    ∀ l : List Handler, CreateUdpServer.chainOk l →
      ((l.map (fun h =>
        CEvent.invoke n h :: (if h.fails then rest h else []))).flatten) =
        l.map (CEvent.invoke n) := by
  intro l hl
  induction l with
  | nil => rfl
  | cons a t ih =>
    have ha : a.fails = false := hl a (List.mem_cons_self a t)
    simp [ha, ih (fun x hx => hl x (List.mem_cons_of_mem a hx))]

theorem callFuel_error_of_ok (st : PState) (hok : errorChainOk st)
    (fuel : Nat) (args : List String) :
    callFuel (fuel + 1) st "error" args =
      CEvent.dispatch "error" args ::
        (st.chains Stage.error).map (CEvent.invoke "error") := by
  rw [callFuel_pos fuel st "error" args Stage.error rfl]
  rw [flatten_invoke_of_ok "error" _ (st.chains Stage.error) hok]

theorem invoke_mem :
    ∀ (f : Nat) (st : PState) (ev : String) (args : List String)
      (e : String) (h : Handler),
      CEvent.invoke e h ∈ callFuel f st ev args →
      ∃ s, stageOfName e = some s ∧ h ∈ st.chains s := by
  intro f
  induction f with
  | zero => intro st ev args e h hm; simp [callFuel] at hm
  | succ n ih =>
    intro st ev args e h hm
    cases hse : stageOfName ev with
    | some s =>
      rw [callFuel_pos n st ev args s hse] at hm
      rcases List.mem_cons.mp hm with hm | hm
      · exact absurd hm (by simp)
      · rcases List.mem_flatten.mp hm with ⟨l, hl, hml⟩
        rcases List.mem_map.mp hl with ⟨h', hh', rfl⟩
        rcases List.mem_cons.mp hml with hml | hml
        · injection hml with h1 h2
          subst h1; subst h2
          exact ⟨s, hse, hh'⟩
        · by_cases hf : h'.fails
          · rw [if_pos hf] at hml; exact ih st "error" _ e h hml
          · rw [if_neg hf] at hml; simp at hml
    | none =>
      rw [callFuel, hse] at hm
      rcases List.mem_cons.mp hm with hm | hm
      · exact absurd hm (by simp)
      · exact ih st "error" _ e h hm

theorem filterMap_invokeAt_self (n : String) (l : List Handler) :
    (l.map (CEvent.invoke n)).filterMap (invokeAt n) = l := by
  induction l with
  | nil => rfl
  | cons a t ih => simp [invokeAt, ih]

theorem filterMap_comp_invokeAt_self (n : String) (l : List Handler) :
    l.filterMap (invokeAt n ∘ CEvent.invoke n) = l := by
  induction l with
  | nil => rfl
  | cons a t ih => simp [invokeAt, ih, Function.comp]

end ProtocolServer

namespace Claims

open CreateUdpServer ProtocolServer

/-- C1 (amended): for every datagram payload P handled by
`createUdpServer`'s message listener (all handlers returning normally), the
acknowledgment passed to `server.send` for the sender is exactly `ACK: `
concatenated with the uppercased decoding of P
(`msg.toString().toUpperCase()`), and it is the only send for that
datagram. -/
theorem C1_ack_is_uppercased (cfg : Config) (hok : noFail cfg)
    (st : List String) (msg : String) (r : Rinfo) (sendOk : Bool) :
    ((handleMessage cfg st msg r sendOk).2).filterMap sendOf =
      [("ACK: " ++ jsToUpperCase msg, r)] := by
  rw [handleMessage_of_ok cfg hok st msg r sendOk]
  by_cases hmem : sessionKey r ∈ st <;> by_cases hs : sendOk <;>
    simp [hmem, hs, sendOf, filterMap_comp_invokes_none]

/-- Witness for `C1_ack_is_uppercased` at a concrete configuration and
datagram. -/
theorem C1_ack_is_uppercased_witness :
    noFail cfgW ∧
      ((handleMessage cfgW [] "Hello" r0 true).2).filterMap sendOf =
        [("ACK: " ++ jsToUpperCase "Hello", r0)] :=
  ⟨by decide, C1_ack_is_uppercased cfgW (by decide) [] "Hello" r0 true⟩

/-- C1 counterexample: for the payload `hello` the transmitted
acknowledgment is `ACK: HELLO`, not the claimed `ACK: hello` — the payload
is uppercased, contradicting "no transformation of P". -/
theorem C1_counterexample :
    ((handleMessage cfg0 [] "hello" r0 true).2).filterMap sendOf =
      [("ACK: HELLO", r0)] ∧
    ("ACK: HELLO" : String) ≠ "ACK: " ++ "hello" := by
  constructor
  · decide
  · decide

/-- C2: for every identity tuple over any datagram sequence from a fresh
server (handlers returning normally, distinct tuples having distinct
session keys), the trace projected onto that tuple is exactly one
`handshake`, then one `connect`, then one `processMessage` per datagram of
that tuple — so `handshake` and `connect` each fire exactly once, on the
tuple's first datagram, `handshake` strictly before `connect`, both before
the tuple's first `processMessage`, and never again afterwards. -/
theorem C2_handshake_connect_once (cfg : Config) (msgs : List Datagram)
    (r : Rinfo) (hok : noFail cfg)
    (hinj : ∀ d ∈ msgs, sessionKey d.rinfo = sessionKey r → d.rinfo = r)
    (hr : msgs.any (fun d => d.rinfo = r) = true) :
    C2concl cfg msgs r := by
  unfold C2concl
  rw [runMessages_life cfg hok r msgs [] hinj]
  simp [hr]

/-- Witness for `C2_handshake_connect_once`: three datagrams, two of them
from `r0`. -/
theorem C2_handshake_connect_once_witness :
    (noFail cfgW ∧
      (∀ d ∈ msgs0, sessionKey d.rinfo = sessionKey r0 → d.rinfo = r0) ∧
      msgs0.any (fun d => d.rinfo = r0) = true) ∧
    C2concl cfgW msgs0 r0 :=
  ⟨⟨by decide, by decide, by decide⟩,
    C2_handshake_connect_once cfgW msgs0 r0 (by decide) (by decide) (by decide)⟩

/-- C3 (amended): in `ProtocolServer.prototype.call` (src/index.js) a
failing handler is fault-isolated — all registered handlers of the stage
run in registration order and each failure yields exactly one `error`
dispatch carrying the originating stage name and the original arguments
(shown for non-`error` stages, with an error chain whose own handlers
return normally). In `createUdpServer` (src/unnamed/part_000) the `forEach`
chains have no such isolation: see the counterexample. -/
theorem C3_call_chain_fault_isolated (st : PState) (s : Stage)
    (args : List String) (hs : s ≠ Stage.error) (hok : errorChainOk st) :
    C3concl st s args := by
  have he := stageOfName_stageName s
  have hne := stageName_ne_error s hs
  unfold C3concl
  rw [callFuel_two st (stageName s) args s he]
  rw [show (1 : Nat) = 0 + 1 from rfl, callFuel_error_of_ok st hok 0]
  constructor
  · induction (st.chains s) with
    | nil => simp [invokeAt]
    | cons a t ih =>
      by_cases ha : a.fails <;>
        simp_all [invokeAt, List.filterMap_eq_nil_iff, Function.comp, hne.symm]
  · induction (st.chains s) with
    | nil => simp [errorDispatchOf, hne]
    | cons a t ih =>
      by_cases ha : a.fails <;>
        simp_all [errorDispatchOf, List.filterMap_eq_nil_iff, Function.comp, hne]

/-- Witness for `C3_call_chain_fault_isolated`: a `connect` chain with a
throwing handler followed by a normal one. -/
theorem C3_call_chain_fault_isolated_witness :
    (Stage.connect ≠ Stage.error ∧ errorChainOk stC3) ∧
    C3concl stC3 Stage.connect ["socket"] :=
  ⟨⟨by decide, by decide⟩,
    C3_call_chain_fault_isolated stC3 Stage.connect ["socket"] (by decide) (by decide)⟩

/-- C3 counterexample: in `createUdpServer`, when the first `receiveMessage`
handler throws, the second handler of the same chain never runs and no
`error` stage event is produced for the failure — the chains are not
fault-isolated. -/
theorem C3_counterexample :
    Ev.invokeH Stage.receiveMessage ⟨1, true⟩ ∈ (handleMessage cfgF [] "m" r0 true).2 ∧
    Ev.invokeH Stage.receiveMessage ⟨2, false⟩ ∉ (handleMessage cfgF [] "m" r0 true).2 ∧
    Ev.fireError ∉ (handleMessage cfgF [] "m" r0 true).2 := by
  constructor
  · decide
  · constructor
    · decide
    · decide

/-- C4 (amended): in `createUdpServer` (handlers returning normally), the
`respondMessage` stage fires exactly when the acknowledgment send succeeds
(suppressed for that datagram only on failure), but no `error` event of any
kind is produced on a send failure — the send callback ignores the error. -/
theorem C4_respond_iff_send_ok (cfg : Config) (hok : noFail cfg)
    (st : List String) (msg : String) (r : Rinfo) (sendOk : Bool) :
    ((handleMessage cfg st msg r sendOk).2).filterMap respondOf =
      (if sendOk then [("ACK: " ++ jsToUpperCase msg, r)] else []) ∧
    Ev.fireError ∉ (handleMessage cfg st msg r sendOk).2 := by
  rw [handleMessage_of_ok cfg hok st msg r sendOk]
  constructor <;>
    (by_cases hmem : sessionKey r ∈ st <;> by_cases hs : sendOk <;>
      simp [hmem, hs, respondOf, filterMap_comp_invokes_none])

/-- Witness for `C4_respond_iff_send_ok` at a failing send. -/
theorem C4_respond_iff_send_ok_witness :
    noFail cfgW ∧
      (((handleMessage cfgW [] "hi" r0 false).2).filterMap respondOf =
        (if (false : Bool) then [("ACK: " ++ jsToUpperCase "hi", r0)] else []) ∧
      Ev.fireError ∉ (handleMessage cfgW [] "hi" r0 false).2) :=
  ⟨by decide, C4_respond_iff_send_ok cfgW (by decide) [] "hi" r0 false⟩

/-- C4 counterexample: on a failed acknowledgment send, `createUdpServer`
suppresses `respondMessage` but produces no `error` stage event at all —
contradicting the claimed `error` event tagged `respond`. The send was
attempted (the `send` event is in the trace). -/
theorem C4_counterexample :
    ((handleMessage cfg0 [] "hi" r0 false).2).filterMap respondOf = [] ∧
    Ev.fireError ∉ (handleMessage cfg0 [] "hi" r0 false).2 ∧
    Ev.send "ACK: HI" r0 ∈ (handleMessage cfg0 [] "hi" r0 false).2 := by
  constructor
  · decide
  · constructor
    · decide
    · decide

/-- C5: on teardown of `createUdpServer` (handlers returning normally),
`disconnect` fires exactly once per recorded identity tuple (the recorded
keys are duplicate-free and are exactly the session keys whose `connect`
fired, in insertion order), the session set is cleared, and `shutdown`
fires exactly once, globally, after all the disconnects. -/
theorem C5_teardown_sequence (cfg : Config) (msgs : List Datagram)
    (hok : noFail cfg) : C5concl cfg msgs := by
  obtain ⟨h1, h2, h3, h4, h5, h6, h7, hD, hS, h10⟩ := hok
  unfold C5concl
  refine ⟨?_, ?_, ?_, ?_⟩
  · rw [handleClose_of_ok cfg hD hS]
  · rw [handleClose_of_ok cfg hD hS]
  · exact runMessages_nodup cfg ⟨h1, h2, h3, h4, h5, h6, h7, hD, hS, h10⟩ msgs [] (by simp)
  · have hx := runMessages_sessions cfg ⟨h1, h2, h3, h4, h5, h6, h7, hD, hS, h10⟩ msgs []
    simpa using hx

/-- Witness for `C5_teardown_sequence`: a run with two distinct peers. -/
theorem C5_teardown_sequence_witness :
    noFail cfgW ∧ C5concl cfgW msgs0 :=
  ⟨by decide, C5_teardown_sequence cfgW msgs0 (by decide)⟩

/-- C6 (amended): teardown is not idempotent in `UDPServer.prototype.shutdown`
(src/index.js): every invocation dispatches the `shutdown` stage and invokes
its chain again, so a second invocation on an already-closed transport
re-fires `shutdown` (two dispatches, each handler invoked twice); no
`disconnect` events are involved (src/index.js registers no `close`
listener and tracks no sessions). -/
theorem C6_shutdown_refires (st : PState)
    (hok : CreateUdpServer.chainOk (st.chains Stage.shutdown)) : C6concl st := by
  have h1 : udpShutdownEvents st =
      CEvent.dispatch "shutdown" [] ::
        (st.chains Stage.shutdown).map (CEvent.invoke "shutdown") := by
    unfold udpShutdownEvents
    rw [callFuel_two st "shutdown" [] Stage.shutdown rfl]
    rw [flatten_invoke_of_ok "shutdown" _ (st.chains Stage.shutdown) hok]
  have hz : List.count (CEvent.dispatch "shutdown" [])
      ((st.chains Stage.shutdown).map (CEvent.invoke "shutdown")) = 0 := by
    rw [List.count_eq_zero]
    simp
  refine ⟨h1, ?_, ?_⟩
  · rw [h1]
    simp [List.count_append, List.count_cons, hz]
  · rw [h1]
    simp [List.filterMap_append, invokeAt, filterMap_comp_invokeAt_self]

/-- Witness for `C6_shutdown_refires`: a server with one registered
`shutdown` handler. -/
theorem C6_shutdown_refires_witness :
    CreateUdpServer.chainOk (stC6.chains Stage.shutdown) ∧ C6concl stC6 :=
  ⟨by decide, C6_shutdown_refires stC6 (by decide)⟩

/-- C6 counterexample: invoking `UDPServer.prototype.shutdown` twice
dispatches the `shutdown` stage twice and invokes the registered `shutdown`
handler twice — not "exactly one `shutdown` in total". -/
theorem C6_counterexample :
    (udpShutdownEvents stC6 ++ udpShutdownEvents stC6).count
      (CEvent.dispatch "shutdown" []) = 2 ∧
    (udpShutdownEvents stC6 ++ udpShutdownEvents stC6).count
      (CEvent.invoke "shutdown" ⟨1, false⟩) = 2 := by
  constructor
  · decide
  · decide

/-- C7 (amended): `onError` registration of a non-default handler filters
the default fallback out of the error chain and appends the handler (so the
first `onError` registration evicts the default and later ones append);
and once the default is gone it never returns under further `on`
registrations. However the default is not retained until an `error`
registration: see the counterexample (a first registration on any empty
non-error stage also evicts it, and `on('error', ...)` does not evict it). -/
theorem C7_onError_evicts_and_appends (st : PState) (h : Handler)
    (hne : h ≠ defaultErrorHandler) : C7concl st h := by
  constructor
  · by_cases hd : defaultErrorHandler ∈ st.chains Stage.error
    · simp [onError, onEv, hd, updChain, stageOfName]
    · simp [onError, onEv, hd, updChain, stageOfName]
      exact (List.filter_eq_self.mpr (fun a ha => by
        simp only [Bool.not_eq_true', decide_eq_false_iff_not]
        exact fun hcon => hd (hcon ▸ ha))).symm
  · intro hd ev
    cases hse : stageOfName ev with
    | none => simpa [onEv, hse] using hd
    | some s' =>
      simp only [onEv, hse]
      by_cases hcase : s' = Stage.error
      · subst hcase
        simp [hd, updChain, Ne.symm hne]
      · simp [hd, updChain, Ne.symm hcase, hne]

/-- Witness for `C7_onError_evicts_and_appends` on a state whose default
fallback is already gone. -/
theorem C7_onError_evicts_and_appends_witness :
    ((⟨5, false⟩ : Handler) ≠ defaultErrorHandler) ∧ C7concl stC7 ⟨5, false⟩ :=
  ⟨by decide, C7_onError_evicts_and_appends stC7 ⟨5, false⟩ (by decide)⟩

/-- C7 counterexample: after a single `on('connect', ...)` registration —
no `error` handler was ever registered — the default fallback is already
out of the error chain (which is empty), and a failure in the `connect`
chain is no longer observed by the default handler. This contradicts "the
default receives every failure until the caller registers their own
`error` handler". -/
theorem C7_counterexample :
    defaultErrorHandler ∉ stC7.chains Stage.error ∧
    stC7.chains Stage.error = [] ∧
    CEvent.invoke "error" defaultErrorHandler ∉ callFuel 2 stC7 "connect" [] := by
  constructor
  · decide
  · constructor
    · decide
    · decide

/-- C8 (amended): invoking a supported stage with zero registered handlers
is a silent no-op (only the dispatch itself happens, no `error` event);
the synthesized `error` event (`No handlers defined for event "X"`) occurs
only for an event name that is not a supported stage at all
(`eventHandlers[event]` is `undefined` rather than an empty array). -/
theorem C8_empty_chain_is_silent (st : PState) (s : Stage) (args : List String)
    (bogus : String) (hempty : st.chains s = [])
    (hb : stageOfName bogus = none) :
    callFuel 2 st (stageName s) args = [CEvent.dispatch (stageName s) args] ∧
    (callFuel 2 st bogus args).filterMap errorDispatchOf =
      [mkNoHandlersMsg bogus :: bogus :: args] := by
  constructor
  · rw [callFuel_two st (stageName s) args s (stageOfName_stageName s), hempty]
    rfl
  · have h2 : callFuel 2 st bogus args =
        CEvent.warnUnsupported bogus ::
          callFuel 1 st "error" (mkNoHandlersMsg bogus :: bogus :: args) :=
      callFuel_none 1 st bogus args hb
    have h1 : callFuel 1 st "error" (mkNoHandlersMsg bogus :: bogus :: args) =
        CEvent.dispatch "error" (mkNoHandlersMsg bogus :: bogus :: args) ::
          ((st.chains Stage.error).map (fun h =>
            CEvent.invoke "error" h ::
              (if h.fails then
                callFuel 0 st "error"
                  (thrownErr :: "error" :: mkNoHandlersMsg bogus :: bogus :: args)
               else []))).flatten :=
      callFuel_pos 0 st "error" _ Stage.error rfl
    rw [h2, h1]
    simp [errorDispatchOf, List.filterMap_eq_nil_iff, List.mem_flatten, callFuel]

/-- Witness for `C8_empty_chain_is_silent`: the fresh server's empty
`processMessage` chain and the unsupported event name `bogus`. -/
theorem C8_empty_chain_is_silent_witness :
    (initState.chains Stage.processMessage = [] ∧ stageOfName "bogus" = none) ∧
    (callFuel 2 initState (stageName Stage.processMessage) ["m"] =
      [CEvent.dispatch (stageName Stage.processMessage) ["m"]] ∧
    (callFuel 2 initState "bogus" ["m"]).filterMap errorDispatchOf =
      [mkNoHandlersMsg "bogus" :: "bogus" :: ["m"]]) :=
  ⟨⟨by decide, by decide⟩,
    C8_empty_chain_is_silent initState Stage.processMessage ["m"] "bogus"
      (by decide) (by decide)⟩

/-- C8 counterexample: calling the supported `processMessage` stage with
zero registered handlers produces only its own dispatch — no synthesized
`error` event — contradicting "not a silent no-op". -/
theorem C8_counterexample :
    callFuel 2 initState "processMessage" ["m"] =
      [CEvent.dispatch "processMessage" ["m"]] ∧
    (callFuel 2 initState "processMessage" ["m"]).filterMap errorDispatchOf = [] := by
  constructor
  · decide
  · decide

/-- C9 (amended): in `createUdpServer` the `listening` stage fires exactly
once per transport confirmation, first in the trace, carrying the bound
local address and port (`server.address()`); but in `UDPServer.prototype.listen`
(src/index.js) the `listening` stage is dispatched before the socket is
even bound — the trace starts with the stage dispatch carrying the
requested port and address (in that order) and ends with the transport's
bound confirmation. -/
theorem C9_listening_order (cfg : CreateUdpServer.Config) (address : String)
    (port : Nat) (st : PState) (p : Nat) (a : String) :
    (CreateUdpServer.handleListening cfg address port).count
      (CreateUdpServer.Ev.fireListening address port) = 1 ∧
    (CreateUdpServer.handleListening cfg address port).head? =
      some (CreateUdpServer.Ev.fireListening address port) ∧
    (udpListen st p a).head? =
      some (UEvent.stage (CEvent.dispatch "listening" [toString p, a])) ∧
    (udpListen st p a).getLast? = some UEvent.transportListening := by
  refine ⟨?_, ?_, ?_, ?_⟩
  · have hz : List.count (CreateUdpServer.Ev.fireListening address port)
        ((CreateUdpServer.runChain Stage.listening cfg.listening).1) = 0 := by
      rw [List.count_eq_zero]
      intro hmem
      obtain ⟨h, hh⟩ := CreateUdpServer.mem_runChain Stage.listening cfg.listening _ hmem
      exact (CreateUdpServer.Ev.noConfusion hh)
    simp [CreateUdpServer.handleListening, List.count_cons, hz]
  · rfl
  · unfold udpListen
    rw [callFuel_two st "listening" [toString p, a] Stage.listening rfl]
    rfl
  · unfold udpListen
    rw [show ((callFuel 2 st "listening" [toString p, a]).map UEvent.stage ++
        [UEvent.bindStart, UEvent.transportListening] : List UEvent) =
        ((callFuel 2 st "listening" [toString p, a]).map UEvent.stage ++
          [UEvent.bindStart]) ++ [UEvent.transportListening] by simp]
    exact List.getLast?_concat _

/-- C9 counterexample: for `UDPServer.prototype.listen(4000, "0.0.0.0")`
the whole event sequence is: `listening` stage dispatch (with the requested
port and address), then the `bind` call, then the transport's bound
confirmation — the stage does not wait for the transport and does not carry
the introspected bound address. -/
theorem C9_counterexample :
    udpListen initState 4000 "0.0.0.0" =
      [UEvent.stage (CEvent.dispatch "listening" ["4000", "0.0.0.0"]),
       UEvent.bindStart, UEvent.transportListening] := by
  decide

/-- C10: for `ProtocolServer` in src/index.js, registering a handler via
`on` for a non-error stage whose chain is empty, while the default error
fallback is still registered, evicts the default fallback from the error
chain as a side effect; afterwards no dispatch ever invokes the default
handler at the `error` stage again. -/
theorem C10_on_evicts_default (st : PState) (s : Stage) (h : Handler)
    (hs : s ≠ Stage.error) (hempty : st.chains s = [])
    (hdef : defaultErrorHandler ∈ st.chains Stage.error) :
    C10concl (onEv st (stageName s) h) := by
  have he := stageOfName_stageName s
  have hne := stageName_ne_error s hs
  have hmem : defaultErrorHandler ∉ (onEv st (stageName s) h).chains Stage.error := by
    simp only [onEv, he]
    simp [hne, hempty, hdef, updChain, Ne.symm hs, List.mem_filter]
  refine ⟨hmem, ?_⟩
  intro f ev args hmem2
  obtain ⟨s', hs', hmemc⟩ := invoke_mem f _ ev args "error" defaultErrorHandler hmem2
  have hse : s' = Stage.error := by
    rw [show stageOfName "error" = some Stage.error from rfl] at hs'
    exact (Option.some.inj hs').symm
  subst hse
  exact hmem hmemc

/-- Witness for `C10_on_evicts_default`: the first registration on the
fresh server is a `connect` handler; the default fallback is evicted and
is not invoked when the failing `connect` chain dispatches `error`. -/
theorem C10_on_evicts_default_witness :
    (Stage.connect ≠ Stage.error ∧ initState.chains Stage.connect = [] ∧
      defaultErrorHandler ∈ initState.chains Stage.error) ∧
    defaultErrorHandler ∉
      (onEv initState (stageName Stage.connect) ⟨1, true⟩).chains Stage.error ∧
    CEvent.invoke "error" defaultErrorHandler ∉
      callFuel 2 (onEv initState (stageName Stage.connect) ⟨1, true⟩) "connect" [] :=
  ⟨⟨by decide, by decide, by decide⟩,
    (C10_on_evicts_default initState Stage.connect ⟨1, true⟩
      (by decide) (by decide) (by decide)).1,
    (C10_on_evicts_default initState Stage.connect ⟨1, true⟩
      (by decide) (by decide) (by decide)).2 2 "connect" []⟩

end Claims

end Udp
